import Mathlib

/-!
Verification of the ViralReel pipeline: a shallow embedding of the
repository's four modules (`app.py`, `video_generator.py`,
`voiceover_generator_gtts.py`, `video_assembler.py`) together with
theorems settling the specification's claims about them.

External effects (HTTP requests, file writes, media decoding) are
modelled by explicit oracle parameters (functions describing what each
request would return) and by explicit event records (which files were
written, which media handles were opened and closed), so that each
Python function becomes a pure Lean function of its inputs and oracles.
-/

namespace ViralReel

/-! ## Data model

A scene record as produced by the generative backend and consumed by
every stage: `scene_number`, `visuals`, `narration` (app.py, the JSON
shape requested from the model). -/

structure Scene where
  scene_number : Nat
  visuals : String
  narration : String
deriving DecidableEq

/-! ## video_generator.py — duration mapping

Line 63 of `video_generator.py`:
`valid_duration = 8 if duration >= 6 else 8  # Default to 8 seconds`. -/

def valid_duration (duration : Int) : Int :=
  if duration ≥ 6 then 8 else 8

/-- Durations the backend models support according to the source's own
comment (gen4.5 supports 5, 8, 10 seconds). -/
def supported_durations : List Int := [5, 8, 10]

/-! ## video_generator.py — submit / poll / fetch state machine

`VideoGenerator.generate_video` submits a generation task, polls its
status up to `max_attempts` times and downloads the result.  The HTTP
world is an oracle (`Backend`): the submission response, the reply to
the i-th status poll (0-based), and the HTTP code of downloading a
given result URL. -/

structure StatusReply where
  code : Nat
  status : Option String
  output : Option String
deriving DecidableEq

structure Backend where
  createCode : Nat
  createTaskId : Option String
  statusAt : Nat → StatusReply
  fetchCode : String → Nat

/-- Result of one `generate_video` run: the returned boolean, how many
status polls were performed, whether the result download was attempted,
and whether the output file was written. -/
structure GVResult where
  ok : Bool
  polls : Nat
  fetched : Bool
  wrote : Bool
deriving DecidableEq

/-- Poll phase of `generate_video` (lines 93-147): each loop iteration
performs one status request; a non-200 reply means `continue`; status
SUCCEEDED extracts the URL and downloads (200 saves the file and
returns True, anything else returns False); FAILED returns False; any
other status continues polling; exhausting the attempts is the timeout
failure. -/
def pollLoop (b : Backend) : Nat → Nat → GVResult
  | 0, polls => ⟨false, polls, false, false⟩
  | fuel + 1, polls =>
    let r := b.statusAt polls
    if r.code ≠ 200 then
      pollLoop b fuel (polls + 1)
    else if r.status = some "SUCCEEDED" then
      match r.output with
      | none => ⟨false, polls + 1, false, false⟩
      | some url =>
        if b.fetchCode url = 200 then ⟨true, polls + 1, true, true⟩
        else ⟨false, polls + 1, true, false⟩
    else if r.status = some "FAILED" then ⟨false, polls + 1, false, false⟩
    else pollLoop b fuel (polls + 1)

/-- `max_attempts = 120` (line 94). -/
def max_attempts : Nat := 120

/-- `VideoGenerator.generate_video`: submission must return 200 or 201
and carry a task id, otherwise the scene fails immediately with no
polling; then the poll loop runs with `max_attempts` attempts. -/
def generate_video (b : Backend) : GVResult :=
  if b.createCode = 200 ∨ b.createCode = 201 then
    match b.createTaskId with
    | none => ⟨false, 0, false, false⟩
    | some _ => pollLoop b max_attempts 0
  else ⟨false, 0, false, false⟩

/-- A status reply on which the loop keeps polling: a transport error,
or a 200 reply whose status is neither SUCCEEDED nor FAILED. -/
def continuesPoll (r : StatusReply) : Prop :=
  r.code ≠ 200 ∨ (r.status ≠ some "SUCCEEDED" ∧ r.status ≠ some "FAILED")

instance (r : StatusReply) : Decidable (continuesPoll r) := by
  unfold continuesPoll; infer_instance

/-! ## app.py — script structuring stage

`generate_script` (and the identical inline logic in `create_video`)
parses the generative backend's reply, validates only that it carries a
`scenes` list, and then overwrites each scene's number with its 1-based
position: `for idx, scene in enumerate(script_data['scenes'], 1):
scene['scene_number'] = idx`. -/

/-- Python `str.strip()` on the topic: drop leading and trailing
whitespace. -/
def pyStrip (s : String) : String :=
  String.mk
    (((s.toList.dropWhile Char.isWhitespace).reverse.dropWhile
      Char.isWhitespace).reverse)

/-- The renumbering loop of `enumerate(scenes, 1)`: the scene at
position `idx` (1-based) gets `scene_number := idx`. -/
def renumberFrom (idx : Nat) : List Scene → List Scene
  | [] => []
  | s :: rest => { s with scene_number := idx } :: renumberFrom (idx + 1) rest

def renumber_scenes (scenes : List Scene) : List Scene :=
  renumberFrom 1 scenes

/-- `generate_script` of app.py.  The generative backend's parsed reply
is modelled as `Option (List Scene)`: `none` when the parsed object has
no `scenes` list (the `ValueError` branch), `some scenes` otherwise.
An empty or whitespace-only topic is rejected up front. -/
def generate_script (topic : String) (resp : Option (List Scene)) :
    Except String (List Scene) :=
  if pyStrip topic = "" then Except.error "Topic is required"
  else
    match resp with
    | none => Except.error "Invalid script structure returned from API"
    | some scenes => Except.ok (renumber_scenes scenes)

/-! ## video_assembler.py — assembly engine

`VideoAssembler.assemble_video` checks its two preconditions, processes
each scene (open video and audio, trim to the shorter of the two
durations, attach audio, best-effort caption, fade first/last),
concatenates, renders, and closes the processed clips and the final
render.  Media files are modelled by their duration plus a flag saying
whether opening them raises; caption rendering failure (the `except` in
`_add_caption`) is an oracle indexed by the 1-based scene position;
`writeFails` models `write_videofile` raising.  Durations are rational
numbers of seconds. -/

structure VideoFile where
  dur : ℚ
  loadFails : Bool
deriving DecidableEq

structure AudioFile where
  dur : ℚ
  loadFails : Bool
deriving DecidableEq

/-- A media handle opened during one `assemble_video` call: the
`VideoFileClip` of the scene at 1-based position `idx`, the
`AudioFileClip` of that scene, or the final rendered video. -/
inductive Handle where
  | video (idx : Nat)
  | audio (idx : Nat)
  | finalRender
deriving DecidableEq

/-- A processed per-scene clip: its duration after trimming, whether
its audio was attached, whether a caption overlay was composited, and
which fades were applied. -/
structure Clip where
  dur : ℚ
  hasAudio : Bool
  captioned : Bool
  fadedIn : Bool
  fadedOut : Bool
deriving DecidableEq

/-- Per-scene processing body (lines 62-91): trim the video to
`min(video_clip.duration, audio_duration)` via `subclip`, attach the
audio with `set_audio`, caption when captions are enabled, the
narration is non-empty and `_add_caption` does not fall into its
`except` branch (in which case the original uncaptioned clip is used),
fade in the first scene and fade out the last. -/
def sceneClip (add_captions captionOk isFirst isLast : Bool)
    (v : VideoFile) (a : AudioFile) (narr : String) : Clip :=
  { dur := min v.dur a.dur
    hasAudio := true
    captioned := add_captions && (narr != "") && captionOk
    fadedIn := isFirst
    fadedOut := isLast }

/-- The per-scene loop over `zip(video_clips, audio_clips, narrations)`
with `idx` counting from 1.  Opening a clip appends a handle; if a load
raises, the exception propagates with the handles opened so far
(`Except.error`); otherwise the processed clips and all opened handles
are returned. -/
def processLoop (add_captions : Bool) (captionFail : Nat → Bool)
    (total : Nat) :
    Nat → List ((VideoFile × AudioFile) × String) → List Handle →
    List Clip → Except (List Handle) (List Clip × List Handle)
  | _, [], opened, acc => Except.ok (acc.reverse, opened)
  | idx, ((v, a), narr) :: rest, opened, acc =>
    if v.loadFails then Except.error opened
    else if a.loadFails then Except.error (opened ++ [Handle.video idx])
    else
      processLoop add_captions captionFail total (idx + 1) rest
        (opened ++ [Handle.video idx, Handle.audio idx])
        (sceneClip add_captions (!captionFail idx) (idx == 1) (idx == total)
          v a narr :: acc)

/-- Result of one `assemble_video` call: the returned boolean, whether
the output file was written, the processed clips in scene order, and
the handles opened and explicitly closed during the call. -/
structure AsmResult where
  ok : Bool
  outputWritten : Bool
  clips : List Clip
  opened : List Handle
  closed : List Handle
deriving DecidableEq

/-- `VideoAssembler.assemble_video` (lines 45-122).  The two
precondition checks return False before anything is opened or written;
the scene loop and the final render run inside `try`; on success every
processed clip is closed (releasing that scene's video and audio
handles) and the final render is closed; the `except` path returns
False without closing anything. -/
def assemble_video (video_clips : List VideoFile)
    (audio_clips : List AudioFile) (narrations : List String)
    (add_captions : Bool) (captionFail : Nat → Bool)
    (writeFails : Bool) : AsmResult :=
  if video_clips.length ≠ audio_clips.length ∨
      video_clips.length ≠ narrations.length then
    ⟨false, false, [], [], []⟩
  else if video_clips.isEmpty then
    ⟨false, false, [], [], []⟩
  else
    match processLoop add_captions captionFail video_clips.length 1
        ((video_clips.zip audio_clips).zip narrations) [] [] with
    | Except.error opened => ⟨false, false, [], opened, []⟩
    | Except.ok (clips, opened) =>
      let openedAll := opened ++ [Handle.finalRender]
      if writeFails then ⟨false, false, clips, openedAll, []⟩
      else ⟨true, true, clips, openedAll, openedAll⟩

/-- The clips produced by a run of the scene loop in which no load
raises. -/
def scenesMapFrom (add_captions : Bool) (captionFail : Nat → Bool)
    (total : Nat) :
    Nat → List ((VideoFile × AudioFile) × String) → List Clip
  | _, [] => []
  | idx, ((v, a), narr) :: rest =>
    sceneClip add_captions (!captionFail idx) (idx == 1) (idx == total)
      v a narr ::
      scenesMapFrom add_captions captionFail total (idx + 1) rest

/-- The handles opened by `n` successfully loaded scenes starting at
1-based position `idx`. -/
def sceneHandles : Nat → Nat → List Handle
  | _, 0 => []
  | idx, n + 1 =>
    Handle.video idx :: Handle.audio idx :: sceneHandles (idx + 1) n

/-! ## Batch generators — voiceover_generator_gtts.py and
video_generator.py

`generate_scene_voiceovers` and `generate_scene_videos` iterate over
the scenes list; a scene whose (stripped) narration or visuals is empty
is skipped with a warning (`continue`); a backend failure on a
non-blank scene aborts the whole batch and returns the empty list.  The
backend call is an oracle from the text actually sent to it. -/

/-- Filename `scene_{n}_voiceover.mp3` joined to the output directory. -/
def sceneAudioPath (output_dir : String) (n : Nat) : String :=
  output_dir ++ "/scene_" ++ toString n ++ "_voiceover.mp3"

/-- Filename `scene_{n}_video.mp4` joined to the output directory. -/
def sceneVideoPath (output_dir : String) (n : Nat) : String :=
  output_dir ++ "/scene_" ++ toString n ++ "_video.mp4"

/-- Python's `needle in haystack` substring test. -/
def containsSub (haystack needle : String) : Bool :=
  decide (needle.toList <:+: haystack.toList)

/-- Python's `str.lower()`. -/
def pyLower (s : String) : String :=
  String.mk (s.toList.map Char.toLower)

/-- The fixed quality-descriptor vocabulary of
`VideoGenerator._enhance_video_prompt`. -/
def enhancements : List String :=
  ["cinematic", "high quality", "smooth camera movement",
   "professional lighting", "detailed"]

/-- `VideoGenerator._enhance_video_prompt`: append the first two
missing descriptors when some are missing (case-insensitive substring
check) and the prompt is under 200 characters. -/
def enhance_video_prompt (base_prompt : String) : String :=
  let lower_prompt := pyLower base_prompt
  let missing := enhancements.filter (fun e => !containsSub lower_prompt e)
  if missing ≠ [] ∧ base_prompt.length < 200 then
    base_prompt ++ ", " ++ String.intercalate ", " (missing.take 2)
  else base_prompt

/-- The loop of `VoiceoverGeneratorGTTS.generate_scene_voiceovers`:
blank narration is skipped, a backend success appends the scene's audio
path, a backend failure aborts (`return []`, modelled as `none`). -/
def voiceoverLoop (backendOk : String → Bool) (output_dir : String) :
    List Scene → List String → Option (List String)
  | [], acc => some acc.reverse
  | s :: rest, acc =>
    if pyStrip s.narration = "" then voiceoverLoop backendOk output_dir rest acc
    else if backendOk (pyStrip s.narration) then
      voiceoverLoop backendOk output_dir rest
        (sceneAudioPath output_dir s.scene_number :: acc)
    else none

def generate_scene_voiceovers (backendOk : String → Bool)
    (output_dir : String) (scenes : List Scene) : List String :=
  (voiceoverLoop backendOk output_dir scenes []).getD []

/-- The loop of `VideoGenerator.generate_scene_videos`: blank visuals
are skipped, otherwise the enhanced prompt is sent to the backend; a
failure aborts the batch. -/
def videoLoop (genOk : String → Bool) (output_dir : String) :
    List Scene → List String → Option (List String)
  | [], acc => some acc.reverse
  | s :: rest, acc =>
    if pyStrip s.visuals = "" then videoLoop genOk output_dir rest acc
    else if genOk (enhance_video_prompt (pyStrip s.visuals)) then
      videoLoop genOk output_dir rest
        (sceneVideoPath output_dir s.scene_number :: acc)
    else none

def generate_scene_videos (genOk : String → Bool) (output_dir : String)
    (scenes : List Scene) : List String :=
  (videoLoop genOk output_dir scenes []).getD []

/-! ## Lemmas and theorems -/

lemma renumberFrom_numbers (l : List Scene) : ∀ idx : Nat,
    (renumberFrom idx l).map Scene.scene_number = List.range' idx l.length := by
  induction l with
  | nil => intro idx; simp [renumberFrom]
  | cons s rest ih =>
    intro idx
    simp [renumberFrom, List.range'_succ, ih (idx + 1)]

lemma renumberFrom_visuals (l : List Scene) : ∀ idx : Nat,
    (renumberFrom idx l).map Scene.visuals = l.map Scene.visuals := by
  induction l with
  | nil => intro idx; simp [renumberFrom]
  | cons s rest ih =>
    intro idx
    simp [renumberFrom, ih (idx + 1)]

lemma renumberFrom_narration (l : List Scene) : ∀ idx : Nat,
    (renumberFrom idx l).map Scene.narration = l.map Scene.narration := by
  induction l with
  | nil => intro idx; simp [renumberFrom]
  | cons s rest ih =>
    intro idx
    simp [renumberFrom, ih (idx + 1)]

lemma pollLoop_continue (b : Backend) (fuel polls : Nat)
    (h : continuesPoll (b.statusAt polls)) :
    pollLoop b (fuel + 1) polls = pollLoop b fuel (polls + 1) := by
  rcases h with h | ⟨h1, h2⟩
  · simp [pollLoop, h]
  · by_cases hc : (b.statusAt polls).code = 200
    · simp [pollLoop, hc, h1, h2]
    · simp [pollLoop, hc]

lemma pollLoop_skip (b : Backend) (j : Nat) : ∀ fuel polls : Nat, j ≤ fuel →
    (∀ i, polls ≤ i → i < polls + j → continuesPoll (b.statusAt i)) →
    pollLoop b fuel polls = pollLoop b (fuel - j) (polls + j) := by
  induction j with
  | zero => intro fuel polls _ _; simp
  | succ j ih =>
    intro fuel polls hj hcont
    obtain ⟨f, rfl⟩ : ∃ f, fuel = f + 1 := ⟨fuel - 1, by omega⟩
    rw [pollLoop_continue b f polls (hcont polls le_rfl (by omega))]
    rw [ih f (polls + 1) (by omega) (fun i h1 h2 => hcont i (by omega) (by omega))]
    congr 1 <;> omega

lemma generate_video_poll (b : Backend)
    (hsub : b.createCode = 200 ∨ b.createCode = 201)
    (hid : b.createTaskId.isSome) :
    generate_video b = pollLoop b max_attempts 0 := by
  obtain ⟨tid, htid⟩ := Option.isSome_iff_exists.mp hid
  unfold generate_video
  rw [if_pos hsub, htid]

lemma generate_video_terminal_at (b : Backend) (k : Nat)
    (hsub : b.createCode = 200 ∨ b.createCode = 201)
    (hid : b.createTaskId.isSome)
    (hcont : ∀ i, i < k - 1 → continuesPoll (b.statusAt i))
    (hk1 : 1 ≤ k) (hk2 : k ≤ max_attempts) :
    generate_video b = pollLoop b (max_attempts - k + 1) (k - 1) := by
  rw [generate_video_poll b hsub hid]
  rw [pollLoop_skip b (k - 1) max_attempts 0 (by unfold max_attempts at *; omega)
    (fun i h1 h2 => hcont i (by omega))]
  congr 1 <;> unfold max_attempts at * <;> omega

lemma generate_video_all_continue (b : Backend)
    (hsub : b.createCode = 200 ∨ b.createCode = 201)
    (hid : b.createTaskId.isSome)
    (hcont : ∀ i, continuesPoll (b.statusAt i)) :
    generate_video b = ⟨false, max_attempts, false, false⟩ := by
  rw [generate_video_poll b hsub hid]
  rw [pollLoop_skip b max_attempts max_attempts 0 le_rfl (fun i h1 h2 => hcont i)]
  simp [pollLoop]

lemma running_continues {r : StatusReply}
    (h : r.status = some "RUNNING") : continuesPoll r := by
  refine Or.inr ⟨?_, ?_⟩ <;> rw [h] <;> decide

/-- Claim C1 (counterexample): the claim says a duration hint of 4 with
supported set 5, 8, 10 resolves to 5; the code maps it to 8. -/
theorem valid_duration_hint4_not_five :
    valid_duration 4 = 8 ∧ valid_duration 4 ≠ 5 := by decide

/-- Claim C1 (amended): the video synthesis port maps every requested
duration hint to the constant 8 seconds (a member of the backend's
supported set, but not the smallest supported value at or above the
hint: a hint of 4 resolves to 8, not 5). -/
theorem valid_duration_always_eight (duration : Int) :
    valid_duration duration = 8 ∧ valid_duration duration ∈ supported_durations := by
  unfold valid_duration supported_durations
  split <;> simp

/-- Claim C2: with submission accepted, if the backend replies 200 with
status RUNNING on polls 1..k-1 and 200 with status SUCCEEDED (carrying a
result URL) on poll k, for k at most `max_attempts`, then the run
performs exactly k status polls and proceeds to fetch the result; if no
reply is ever terminal, the run performs exactly `max_attempts` polls
and returns the timeout failure. -/
theorem polling_termination :
    (∀ (b : Backend) (k : Nat) (url : String),
      (b.createCode = 200 ∨ b.createCode = 201) →
      b.createTaskId.isSome →
      (∀ i, i < k - 1 →
        (b.statusAt i).code = 200 ∧ (b.statusAt i).status = some "RUNNING") →
      (b.statusAt (k - 1)).code = 200 →
      (b.statusAt (k - 1)).status = some "SUCCEEDED" →
      (b.statusAt (k - 1)).output = some url →
      1 ≤ k → k ≤ max_attempts →
      (generate_video b).polls = k ∧ (generate_video b).fetched = true) ∧
    (∀ b : Backend,
      (b.createCode = 200 ∨ b.createCode = 201) →
      b.createTaskId.isSome →
      (∀ i, (b.statusAt i).code = 200 →
        (b.statusAt i).status ≠ some "SUCCEEDED" ∧
        (b.statusAt i).status ≠ some "FAILED") →
      generate_video b = ⟨false, max_attempts, false, false⟩) := by
  constructor
  · intro b k url hsub hid hrun hc hs ho hk1 hk2
    have hgv := generate_video_terminal_at b k hsub hid
      (fun i hi => running_continues (hrun i hi).2) hk1 hk2
    have hk : k - 1 + 1 = k := by omega
    by_cases hf : b.fetchCode url = 200
    · rw [hgv]
      simp [pollLoop, hc, hs, ho, hf, hk]
    · rw [hgv]
      simp [pollLoop, hc, hs, ho, hf, hk]
  · intro b hsub hid hterm
    refine generate_video_all_continue b hsub hid (fun i => ?_)
    by_cases hc : (b.statusAt i).code = 200
    · exact Or.inr (hterm i hc)
    · exact Or.inl hc

/-- Claim C2 witness: a stub backend running for two polls and
succeeding on the third performs exactly 3 polls and fetches; a stub
that never leaves RUNNING fails after exactly 120 polls. -/
theorem polling_termination_witness :
    ((generate_video ⟨200, some "t1",
        fun i => if i < 2 then ⟨200, some "RUNNING", none⟩
                 else ⟨200, some "SUCCEEDED", some "u"⟩,
        fun _ => 200⟩).polls = 3 ∧
      (generate_video ⟨200, some "t1",
        fun i => if i < 2 then ⟨200, some "RUNNING", none⟩
                 else ⟨200, some "SUCCEEDED", some "u"⟩,
        fun _ => 200⟩).fetched = true) ∧
    generate_video ⟨200, some "t1", fun _ => ⟨200, some "RUNNING", none⟩,
      fun _ => 200⟩ = ⟨false, max_attempts, false, false⟩ := by
  constructor
  · refine polling_termination.1 _ 3 "u" (Or.inl rfl) rfl ?_ ?_ ?_ ?_ ?_ ?_
    · intro i hi
      have h2 : i < 2 := by omega
      constructor <;> simp [h2]
    · rfl
    · rfl
    · rfl
    · omega
    · decide
  · refine polling_termination.2 _ (Or.inl rfl) rfl ?_
    intro i _
    constructor <;> simp

/-- Claim C3: transport errors (non-200 status replies) while polling
never fail the run by themselves — the run still succeeds when a later
poll reports SUCCEEDED within the ceiling, and with persistent
transport errors the run only fails after the full `max_attempts`
polls; by contrast, a non-success submission response fails the scene
immediately with no polls and no fetch, and a non-success final
download fails the scene immediately after poll k with exactly one
fetch and no retry. -/
theorem transport_error_policy :
    (∀ (b : Backend) (k : Nat) (url : String),
      (b.createCode = 200 ∨ b.createCode = 201) →
      b.createTaskId.isSome →
      (∀ i, i < k - 1 → (b.statusAt i).code ≠ 200) →
      (b.statusAt (k - 1)).code = 200 →
      (b.statusAt (k - 1)).status = some "SUCCEEDED" →
      (b.statusAt (k - 1)).output = some url →
      b.fetchCode url = 200 →
      1 ≤ k → k ≤ max_attempts →
      generate_video b = ⟨true, k, true, true⟩) ∧
    (∀ b : Backend,
      (b.createCode = 200 ∨ b.createCode = 201) →
      b.createTaskId.isSome →
      (∀ i, (b.statusAt i).code ≠ 200) →
      generate_video b = ⟨false, max_attempts, false, false⟩) ∧
    (∀ b : Backend, b.createCode ≠ 200 → b.createCode ≠ 201 →
      generate_video b = ⟨false, 0, false, false⟩) ∧
    (∀ (b : Backend) (k : Nat) (url : String),
      (b.createCode = 200 ∨ b.createCode = 201) →
      b.createTaskId.isSome →
      (∀ i, i < k - 1 →
        (b.statusAt i).code = 200 ∧ (b.statusAt i).status = some "RUNNING") →
      (b.statusAt (k - 1)).code = 200 →
      (b.statusAt (k - 1)).status = some "SUCCEEDED" →
      (b.statusAt (k - 1)).output = some url →
      b.fetchCode url ≠ 200 →
      1 ≤ k → k ≤ max_attempts →
      generate_video b = ⟨false, k, true, false⟩) := by
  refine ⟨?_, ?_, ?_, ?_⟩
  · intro b k url hsub hid herr hc hs ho hf hk1 hk2
    have hgv := generate_video_terminal_at b k hsub hid
      (fun i hi => Or.inl (herr i hi)) hk1 hk2
    have hk : k - 1 + 1 = k := by omega
    rw [hgv]
    simp [pollLoop, hc, hs, ho, hf, hk]
  · intro b hsub hid herr
    exact generate_video_all_continue b hsub hid (fun i => Or.inl (herr i))
  · intro b h200 h201
    unfold generate_video
    rw [if_neg (by tauto)]
  · intro b k url hsub hid hrun hc hs ho hf hk1 hk2
    have hgv := generate_video_terminal_at b k hsub hid
      (fun i hi => running_continues (hrun i hi).2) hk1 hk2
    have hk : k - 1 + 1 = k := by omega
    rw [hgv]
    simp [pollLoop, hc, hs, ho, hf, hk]

/-- Claim C3 witness: transport errors on the first two polls followed
by SUCCEEDED still yield success after 3 polls; persistent transport
errors time out after 120 polls; a 500 submission response fails with
no polls; a failing final download fails right after the successful
poll with one fetch. -/
theorem transport_error_policy_witness :
    generate_video ⟨201, some "t1",
      fun i => if i < 2 then ⟨503, none, none⟩
               else ⟨200, some "SUCCEEDED", some "u"⟩,
      fun _ => 200⟩ = ⟨true, 3, true, true⟩ ∧
    generate_video ⟨200, some "t1", fun _ => ⟨503, none, none⟩,
      fun _ => 200⟩ = ⟨false, max_attempts, false, false⟩ ∧
    generate_video ⟨500, some "t1", fun _ => ⟨200, some "SUCCEEDED", some "u"⟩,
      fun _ => 200⟩ = ⟨false, 0, false, false⟩ ∧
    generate_video ⟨200, some "t1",
      fun i => if i < 1 then ⟨200, some "RUNNING", none⟩
               else ⟨200, some "SUCCEEDED", some "u"⟩,
      fun _ => 404⟩ = ⟨false, 2, true, false⟩ := by
  refine ⟨?_, ?_, ?_, ?_⟩
  · refine transport_error_policy.1 _ 3 "u" (Or.inr rfl) rfl ?_ ?_ ?_ ?_ ?_ ?_ ?_
    · intro i hi
      have h2 : i < 2 := by omega
      simp [h2]
    · rfl
    · rfl
    · rfl
    · rfl
    · omega
    · decide
  · refine transport_error_policy.2.1 _ (Or.inl rfl) rfl ?_
    intro i
    simp
  · exact transport_error_policy.2.2.1 _ (by decide) (by decide)
  · refine transport_error_policy.2.2.2 _ 2 "u" (Or.inl rfl) rfl ?_ ?_ ?_ ?_ ?_ ?_ ?_
    · intro i hi
      have h1 : i < 1 := by omega
      constructor <;> simp [h1]
    · rfl
    · rfl
    · rfl
    · decide
    · omega
    · decide

/-- Claim C4: for every non-empty topic and every scenes list returned
by the generative backend, the structuring stage returns a Script whose
scene_number sequence is exactly 1, 2, ..., len(scenes): each scene's
number is overwritten with its 1-based position. -/
theorem structure_renumbers (topic : String) (scenes : List Scene)
    (htopic : pyStrip topic ≠ "") :
    generate_script topic (some scenes) = Except.ok (renumber_scenes scenes) ∧
    (renumber_scenes scenes).map Scene.scene_number =
      List.range' 1 scenes.length := by
  constructor
  · simp [generate_script, htopic]
  · exact renumberFrom_numbers scenes 1

/-- Claim C4 witness: topic "ai" with backend-supplied scene numbers
7 and 5 yields a script numbered 1, 2. -/
theorem structure_renumbers_witness :
    generate_script "ai" (some [⟨7, "v1", "n1"⟩, ⟨5, "v2", "n2"⟩]) =
      Except.ok [⟨1, "v1", "n1"⟩, ⟨2, "v2", "n2"⟩] ∧
    (renumber_scenes [⟨7, "v1", "n1"⟩, ⟨5, "v2", "n2"⟩]).map
      Scene.scene_number = [1, 2] := by
  have h := structure_renumbers "ai" [⟨7, "v1", "n1"⟩, ⟨5, "v2", "n2"⟩]
    (by decide)
  exact ⟨h.1.trans (by rfl), h.2.trans (by rfl)⟩

/-- Claim C5 (counterexample): a generator response containing a scene
with empty visuals and empty narration passes through the structuring
stage unchecked — it is returned (renumbered) rather than rejected, so
the returned Script violates the non-empty-text invariant. -/
theorem scene_text_unvalidated_cex :
    generate_script "ai" (some [⟨3, "", ""⟩]) = Except.ok [⟨1, "", ""⟩] ∧
    (Scene.mk 1 "" "").visuals = "" ∧ (Scene.mk 1 "" "").narration = "" := by
  exact ⟨rfl, rfl, rfl⟩

/-- Claim C5 (amended): every Script returned by the structuring stage
has contiguous 1-based scene numbering, but the visuals and narration
texts are passed through verbatim with no non-emptiness validation: a
generator response containing an empty-text scene is returned with only
its scene number rewritten. -/
theorem scene_numbering_only_invariant (topic : String) (scenes : List Scene)
    (htopic : pyStrip topic ≠ "") :
    generate_script topic (some scenes) = Except.ok (renumber_scenes scenes) ∧
    (renumber_scenes scenes).map Scene.scene_number =
      List.range' 1 scenes.length ∧
    (renumber_scenes scenes).map Scene.visuals = scenes.map Scene.visuals ∧
    (renumber_scenes scenes).map Scene.narration =
      scenes.map Scene.narration := by
  refine ⟨?_, renumberFrom_numbers scenes 1, renumberFrom_visuals scenes 1,
    renumberFrom_narration scenes 1⟩
  simp [generate_script, htopic]

/-- Claim C5 witness: a script whose second scene has empty texts is
returned renumbered with the empty texts intact. -/
theorem scene_numbering_only_invariant_witness :
    generate_script "cats" (some [⟨9, "v", "n"⟩, ⟨9, "", ""⟩]) =
      Except.ok [⟨1, "v", "n"⟩, ⟨2, "", ""⟩] ∧
    (renumber_scenes [⟨9, "v", "n"⟩, ⟨9, "", ""⟩]).map Scene.scene_number =
      [1, 2] ∧
    (renumber_scenes [⟨9, "v", "n"⟩, ⟨9, "", ""⟩]).map Scene.visuals =
      ["v", ""] ∧
    (renumber_scenes [⟨9, "v", "n"⟩, ⟨9, "", ""⟩]).map Scene.narration =
      ["n", ""] := by
  have h := scene_numbering_only_invariant "cats" [⟨9, "v", "n"⟩, ⟨9, "", ""⟩]
    (by decide)
  exact ⟨h.1.trans (by rfl), h.2.1.trans (by rfl), h.2.2.1.trans (by rfl),
    h.2.2.2.trans (by rfl)⟩

lemma processLoop_ok (add_captions : Bool) (captionFail : Nat → Bool)
    (total : Nat) (l : List ((VideoFile × AudioFile) × String)) :
    ∀ (idx : Nat) (opened : List Handle) (acc : List Clip),
    (∀ x ∈ l, x.1.1.loadFails = false ∧ x.1.2.loadFails = false) →
    processLoop add_captions captionFail total idx l opened acc =
      Except.ok
        (acc.reverse ++ scenesMapFrom add_captions captionFail total idx l,
          opened ++ sceneHandles idx l.length) := by
  induction l with
  | nil => intro idx opened acc _; simp [processLoop, scenesMapFrom, sceneHandles]
  | cons x rest ih =>
    intro idx opened acc hl
    obtain ⟨⟨v, a⟩, narr⟩ := x
    have hv := (hl _ (List.mem_cons_self _ _)).1
    have ha := (hl _ (List.mem_cons_self _ _)).2
    simp only at hv ha
    rw [show processLoop add_captions captionFail total idx
        (((v, a), narr) :: rest) opened acc =
        (if v.loadFails then Except.error opened
         else if a.loadFails then Except.error (opened ++ [Handle.video idx])
         else processLoop add_captions captionFail total (idx + 1) rest
           (opened ++ [Handle.video idx, Handle.audio idx])
           (sceneClip add_captions (!captionFail idx) (idx == 1)
             (idx == total) v a narr :: acc)) from rfl, hv, ha]
    simp only [Bool.false_eq_true, if_false]
    rw [ih (idx + 1) _ _ (fun y hy => hl y (List.mem_cons_of_mem _ hy))]
    simp [scenesMapFrom, sceneHandles, List.append_assoc]

lemma scenesMapFrom_getElem? (add_captions : Bool) (f : Nat → Bool)
    (total : Nat) (l : List ((VideoFile × AudioFile) × String)) :
    ∀ idx k : Nat,
    (scenesMapFrom add_captions f total idx l)[k]? =
      (l[k]?).map (fun x =>
        sceneClip add_captions (!f (idx + k)) ((idx + k) == 1)
          ((idx + k) == total) x.1.1 x.1.2 x.2) := by
  induction l with
  | nil => intro idx k; simp [scenesMapFrom]
  | cons x rest ih =>
    intro idx k
    obtain ⟨⟨v, a⟩, narr⟩ := x
    cases k with
    | zero => simp [scenesMapFrom]
    | succ k =>
      have harith : idx + (k + 1) = idx + 1 + k := by omega
      simp [scenesMapFrom, ih (idx + 1) k, harith]

lemma assemble_video_ok (video_clips : List VideoFile)
    (audio_clips : List AudioFile) (narrations : List String)
    (add_captions : Bool) (captionFail : Nat → Bool)
    (hlen1 : video_clips.length = audio_clips.length)
    (hlen2 : video_clips.length = narrations.length)
    (hne : video_clips ≠ [])
    (hload : ∀ x ∈ (video_clips.zip audio_clips).zip narrations,
      x.1.1.loadFails = false ∧ x.1.2.loadFails = false) :
    assemble_video video_clips audio_clips narrations add_captions
      captionFail false =
      ⟨true, true,
        scenesMapFrom add_captions captionFail video_clips.length 1
          ((video_clips.zip audio_clips).zip narrations),
        sceneHandles 1 video_clips.length ++ [Handle.finalRender],
        sceneHandles 1 video_clips.length ++ [Handle.finalRender]⟩ := by
  have hzlen : ((video_clips.zip audio_clips).zip narrations).length =
      video_clips.length := by
    simp [List.length_zip, ← hlen1, ← hlen2]
  unfold assemble_video
  rw [if_neg (by push_neg; exact ⟨hlen1, hlen2⟩),
    if_neg (by simpa [List.isEmpty_iff] using hne)]
  rw [processLoop_ok add_captions captionFail video_clips.length _ 1 [] []
    hload]
  simp [hzlen]

/-- Claim C6: when the three input sequences are not all of equal
length, or are empty, `assemble_video` fails immediately: it returns
False having opened no media handle and written no output file. -/
theorem assemble_precondition (video_clips : List VideoFile)
    (audio_clips : List AudioFile) (narrations : List String)
    (add_captions : Bool) (captionFail : Nat → Bool) (writeFails : Bool)
    (h : video_clips.length ≠ audio_clips.length ∨
      video_clips.length ≠ narrations.length ∨ video_clips = []) :
    assemble_video video_clips audio_clips narrations add_captions
      captionFail writeFails = ⟨false, false, [], [], []⟩ := by
  unfold assemble_video
  by_cases h1 : video_clips.length ≠ audio_clips.length ∨
      video_clips.length ≠ narrations.length
  · rw [if_pos h1]
  · rw [if_neg h1]
    have h2 : video_clips.isEmpty := by
      rcases h with h | h | h
      · exact absurd (Or.inl h) h1
      · exact absurd (Or.inr h) h1
      · simp [h]
    rw [if_pos h2]

/-- Claim C6 witness: one video with no audio and no narration fails
with nothing opened and nothing written; so do three empty sequences. -/
theorem assemble_precondition_witness :
    assemble_video [⟨8, false⟩] [] [] true (fun _ => false) false =
      ⟨false, false, [], [], []⟩ ∧
    assemble_video [] [] [] true (fun _ => false) false =
      ⟨false, false, [], [], []⟩ := by
  exact ⟨assemble_precondition [⟨8, false⟩] [] [] true (fun _ => false) false
      (Or.inl (by decide)),
    assemble_precondition [] [] [] true (fun _ => false) false
      (Or.inr (Or.inr rfl))⟩

/-- Claim C7: each processed scene's video is trimmed to
min(video duration, audio duration): when the audio is no longer than
the video the trimmed duration equals the audio duration, otherwise it
equals the original video duration, and it never exceeds the original
video duration; accordingly, in a successful assembly run the clip at
every position k has duration min of that scene's video and audio
durations. -/
theorem trim_min_duration :
    (∀ (add_captions captionOk isFirst isLast : Bool) (v : VideoFile)
        (a : AudioFile) (narr : String),
      (a.dur ≤ v.dur →
        (sceneClip add_captions captionOk isFirst isLast v a narr).dur =
          a.dur) ∧
      (v.dur < a.dur →
        (sceneClip add_captions captionOk isFirst isLast v a narr).dur =
          v.dur) ∧
      (sceneClip add_captions captionOk isFirst isLast v a narr).dur ≤
        v.dur) ∧
    (∀ (video_clips : List VideoFile) (audio_clips : List AudioFile)
        (narrations : List String) (add_captions : Bool)
        (captionFail : Nat → Bool) (k : Nat) (v : VideoFile)
        (a : AudioFile) (n : String),
      video_clips.length = audio_clips.length →
      video_clips.length = narrations.length →
      video_clips ≠ [] →
      (∀ x ∈ (video_clips.zip audio_clips).zip narrations,
        x.1.1.loadFails = false ∧ x.1.2.loadFails = false) →
      ((video_clips.zip audio_clips).zip narrations)[k]? = some ((v, a), n) →
      ((assemble_video video_clips audio_clips narrations add_captions
          captionFail false).clips[k]?).map Clip.dur =
        some (min v.dur a.dur)) := by
  constructor
  · intro add_captions captionOk isFirst isLast v a narr
    unfold sceneClip
    exact ⟨fun h => min_eq_right h, fun h => min_eq_left h.le,
      min_le_left _ _⟩
  · intro video_clips audio_clips narrations add_captions captionFail k v a n
      hlen1 hlen2 hne hload hk
    rw [assemble_video_ok video_clips audio_clips narrations add_captions
      captionFail hlen1 hlen2 hne hload]
    simp only [scenesMapFrom_getElem? add_captions captionFail
      video_clips.length _ 1 k, hk]
    simp [sceneClip]

/-- Claim C7 witness: with an 8-second video, a 3-second audio trims
the scene to 3 seconds; a 2-second video under a 3-second audio keeps
its 2 seconds, never extended; and a one-scene assembly run records the
trimmed duration. -/
theorem trim_min_duration_witness :
    (sceneClip true true true true ⟨8, false⟩ ⟨3, false⟩ "n").dur = 3 ∧
    (sceneClip true true true true ⟨2, false⟩ ⟨3, false⟩ "n").dur = 2 ∧
    (sceneClip true true true true ⟨2, false⟩ ⟨3, false⟩ "n").dur ≤ 2 ∧
    ((assemble_video [⟨8, false⟩] [⟨3, false⟩] ["n"] true (fun _ => false)
        false).clips[0]?).map Clip.dur = some (min 8 3) := by
  refine ⟨(trim_min_duration.1 true true true true ⟨8, false⟩ ⟨3, false⟩
      "n").1 (by norm_num),
    (trim_min_duration.1 true true true true ⟨2, false⟩ ⟨3, false⟩
      "n").2.1 (by norm_num),
    (trim_min_duration.1 true true true true ⟨2, false⟩ ⟨3, false⟩
      "n").2.2,
    trim_min_duration.2 [⟨8, false⟩] [⟨3, false⟩] ["n"] true
      (fun _ => false) 0 ⟨8, false⟩ ⟨3, false⟩ "n" rfl rfl (by simp)
      (by simp) rfl⟩

/-- Claim C8: a caption-render failure on one scene does not abort the
assembly run (it still succeeds), that scene proceeds with its
uncaptioned, audio-attached, trimmed clip, and the clips of every other
scene are exactly what they would have been without the failure. -/
theorem caption_isolation (video_clips : List VideoFile)
    (audio_clips : List AudioFile) (narrations : List String)
    (add_captions : Bool) (i : Nat) (f g : Nat → Bool)
    (hlen1 : video_clips.length = audio_clips.length)
    (hlen2 : video_clips.length = narrations.length)
    (hne : video_clips ≠ [])
    (hload : ∀ x ∈ (video_clips.zip audio_clips).zip narrations,
      x.1.1.loadFails = false ∧ x.1.2.loadFails = false)
    (hfg : ∀ j, j ≠ i → f j = g j) :
    (assemble_video video_clips audio_clips narrations add_captions f
      false).ok = true ∧
    (assemble_video video_clips audio_clips narrations add_captions g
      false).ok = true ∧
    (∀ k, 1 + k ≠ i →
      (assemble_video video_clips audio_clips narrations add_captions f
        false).clips[k]? =
      (assemble_video video_clips audio_clips narrations add_captions g
        false).clips[k]?) ∧
    (∀ (v : VideoFile) (a : AudioFile) (n : String),
      ((video_clips.zip audio_clips).zip narrations)[i - 1]? =
        some ((v, a), n) →
      1 ≤ i → f i = true →
      (assemble_video video_clips audio_clips narrations add_captions f
        false).clips[i - 1]? =
        some (sceneClip add_captions false (i == 1)
          (i == video_clips.length) v a n)) := by
  have hf := assemble_video_ok video_clips audio_clips narrations
    add_captions f hlen1 hlen2 hne hload
  have hg := assemble_video_ok video_clips audio_clips narrations
    add_captions g hlen1 hlen2 hne hload
  refine ⟨by rw [hf], by rw [hg], ?_, ?_⟩
  · intro k hk
    rw [hf, hg]
    simp only [scenesMapFrom_getElem?]
    rw [hfg (1 + k) hk]
  · intro v a n hv hi hfi
    rw [hf]
    simp only [scenesMapFrom_getElem?, hv]
    have harith : 1 + (i - 1) = i := by omega
    rw [harith]
    simp [hfi]

/-- Claim C8 witness: in a three-scene run where only scene 2's caption
rendering fails, the run succeeds, scenes 1 and 3 have exactly the
clips of the failure-free run, and scene 2 proceeds uncaptioned with
its audio attached and its duration trimmed. -/
theorem caption_isolation_witness :
    (assemble_video [⟨8, false⟩, ⟨8, false⟩, ⟨8, false⟩]
      [⟨3, false⟩, ⟨4, false⟩, ⟨5, false⟩] ["a", "b", "c"] true
      (fun j => j == 2) false).ok = true ∧
    (assemble_video [⟨8, false⟩, ⟨8, false⟩, ⟨8, false⟩]
      [⟨3, false⟩, ⟨4, false⟩, ⟨5, false⟩] ["a", "b", "c"] true
      (fun _ => false) false).ok = true ∧
    ((assemble_video [⟨8, false⟩, ⟨8, false⟩, ⟨8, false⟩]
      [⟨3, false⟩, ⟨4, false⟩, ⟨5, false⟩] ["a", "b", "c"] true
      (fun j => j == 2) false).clips[0]? =
      (assemble_video [⟨8, false⟩, ⟨8, false⟩, ⟨8, false⟩]
        [⟨3, false⟩, ⟨4, false⟩, ⟨5, false⟩] ["a", "b", "c"] true
        (fun _ => false) false).clips[0]?) ∧
    ((assemble_video [⟨8, false⟩, ⟨8, false⟩, ⟨8, false⟩]
      [⟨3, false⟩, ⟨4, false⟩, ⟨5, false⟩] ["a", "b", "c"] true
      (fun j => j == 2) false).clips[2]? =
      (assemble_video [⟨8, false⟩, ⟨8, false⟩, ⟨8, false⟩]
        [⟨3, false⟩, ⟨4, false⟩, ⟨5, false⟩] ["a", "b", "c"] true
        (fun _ => false) false).clips[2]?) ∧
    (assemble_video [⟨8, false⟩, ⟨8, false⟩, ⟨8, false⟩]
      [⟨3, false⟩, ⟨4, false⟩, ⟨5, false⟩] ["a", "b", "c"] true
      (fun j => j == 2) false).clips[1]? =
      some (sceneClip true false false false ⟨8, false⟩ ⟨4, false⟩ "b") := by
  have h := caption_isolation [⟨8, false⟩, ⟨8, false⟩, ⟨8, false⟩]
    [⟨3, false⟩, ⟨4, false⟩, ⟨5, false⟩] ["a", "b", "c"] true 2
    (fun j => j == 2) (fun _ => false) rfl rfl (by simp)
    (by intro x hx; fin_cases hx <;> exact ⟨rfl, rfl⟩)
    (by intro j hj; simpa using hj)
  refine ⟨h.1, h.2.1, h.2.2.1 0 (by decide), h.2.2.1 2 (by decide),
    (h.2.2.2 ⟨8, false⟩ ⟨4, false⟩ "b" rfl (by decide) rfl).trans ?_⟩
  rfl

/-- Claim C9 (code violates the claim): when opening scene 2's video
raises after scene 1's video and audio handles were opened, the
`except` branch of `assemble_video` returns False without closing
anything: two opened handles remain unreleased on this exit path. -/
theorem handle_leak_on_exception :
    assemble_video [⟨8, false⟩, ⟨8, true⟩] [⟨3, false⟩, ⟨4, false⟩]
      ["a", "b"] true (fun _ => false) false =
      ⟨false, false, [], [Handle.video 1, Handle.audio 1], []⟩ ∧
    [Handle.video 1, Handle.audio 1] ≠ ([] : List Handle) := by
  exact ⟨rfl, by simp⟩

lemma voiceoverLoop_all_ok (backendOk : String → Bool) (output_dir : String)
    (scenes : List Scene) : ∀ acc : List String,
    (∀ s ∈ scenes, pyStrip s.narration ≠ "" →
      backendOk (pyStrip s.narration) = true) →
    voiceoverLoop backendOk output_dir scenes acc =
      some (acc.reverse ++
        (scenes.filter (fun s => pyStrip s.narration != "")).map
          (fun s => sceneAudioPath output_dir s.scene_number)) := by
  induction scenes with
  | nil => intro acc _; simp [voiceoverLoop]
  | cons s rest ih =>
    intro acc hok
    by_cases hs : pyStrip s.narration = ""
    · rw [voiceoverLoop, if_pos hs,
        ih acc (fun t ht => hok t (List.mem_cons_of_mem _ ht))]
      simp [List.filter_cons, hs]
    · have hb := hok s (List.mem_cons_self _ _) hs
      rw [voiceoverLoop, if_neg hs, if_pos hb,
        ih _ (fun t ht => hok t (List.mem_cons_of_mem _ ht))]
      simp [List.filter_cons, hs]

lemma videoLoop_all_ok (genOk : String → Bool) (output_dir : String)
    (scenes : List Scene) : ∀ acc : List String,
    (∀ s ∈ scenes, pyStrip s.visuals ≠ "" →
      genOk (enhance_video_prompt (pyStrip s.visuals)) = true) →
    videoLoop genOk output_dir scenes acc =
      some (acc.reverse ++
        (scenes.filter (fun s => pyStrip s.visuals != "")).map
          (fun s => sceneVideoPath output_dir s.scene_number)) := by
  induction scenes with
  | nil => intro acc _; simp [videoLoop]
  | cons s rest ih =>
    intro acc hok
    by_cases hs : pyStrip s.visuals = ""
    · rw [videoLoop, if_pos hs,
        ih acc (fun t ht => hok t (List.mem_cons_of_mem _ ht))]
      simp [List.filter_cons, hs]
    · have hb := hok s (List.mem_cons_self _ _) hs
      rw [videoLoop, if_neg hs, if_pos hb,
        ih _ (fun t ht => hok t (List.mem_cons_of_mem _ ht))]
      simp [List.filter_cons, hs]

/-- Claim C10: in both batch generators a scene whose stripped
narration (voiceover batch) or visuals (video batch) is empty is
silently skipped, not treated as a failure: when the backend succeeds
on every non-blank scene, the returned list is exactly the per-scene
paths of the non-blank scenes, omitting the skipped ones; hence when
some scene is blank the returned list is strictly shorter than the
scenes list (whose length is that of the narrations list the
orchestrator later hands to assembly). -/
theorem blank_scene_skipped :
    (∀ (backendOk : String → Bool) (output_dir : String)
        (scenes : List Scene),
      (∀ s ∈ scenes, pyStrip s.narration ≠ "" →
        backendOk (pyStrip s.narration) = true) →
      generate_scene_voiceovers backendOk output_dir scenes =
        (scenes.filter (fun s => pyStrip s.narration != "")).map
          (fun s => sceneAudioPath output_dir s.scene_number)) ∧
    (∀ (genOk : String → Bool) (output_dir : String)
        (scenes : List Scene),
      (∀ s ∈ scenes, pyStrip s.visuals ≠ "" →
        genOk (enhance_video_prompt (pyStrip s.visuals)) = true) →
      generate_scene_videos genOk output_dir scenes =
        (scenes.filter (fun s => pyStrip s.visuals != "")).map
          (fun s => sceneVideoPath output_dir s.scene_number)) ∧
    (∀ (backendOk : String → Bool) (output_dir : String)
        (scenes : List Scene) (s : Scene),
      (∀ t ∈ scenes, pyStrip t.narration ≠ "" →
        backendOk (pyStrip t.narration) = true) →
      s ∈ scenes → pyStrip s.narration = "" →
      (generate_scene_voiceovers backendOk output_dir scenes).length <
        (scenes.map Scene.narration).length) := by
  refine ⟨?_, ?_, ?_⟩
  · intro backendOk output_dir scenes hok
    unfold generate_scene_voiceovers
    rw [voiceoverLoop_all_ok backendOk output_dir scenes [] hok]
    simp
  · intro genOk output_dir scenes hok
    unfold generate_scene_videos
    rw [videoLoop_all_ok genOk output_dir scenes [] hok]
    simp
  · intro backendOk output_dir scenes s hok hmem hblank
    unfold generate_scene_voiceovers
    rw [voiceoverLoop_all_ok backendOk output_dir scenes [] hok]
    simp only [Option.getD_some, List.reverse_nil, List.nil_append,
      List.length_map]
    rw [List.length_filter_lt_length_iff_exists]
    exact ⟨s, hmem, by simp [hblank]⟩

/-- Claim C10 witness: with an always-succeeding backend, a three-scene
script whose second scene has whitespace-only narration and whose third
scene has empty visuals yields two voiceover files (scenes 1 and 3) and
two video files (scenes 1 and 2), each list shorter than the three
narrations handed to assembly. -/
theorem blank_scene_skipped_witness :
    generate_scene_voiceovers (fun _ => true) "d"
      [⟨1, "v1", "n1"⟩, ⟨2, "v2", "  "⟩, ⟨3, "", "n3"⟩] =
      ["d/scene_1_voiceover.mp3", "d/scene_3_voiceover.mp3"] ∧
    generate_scene_videos (fun _ => true) "d"
      [⟨1, "v1", "n1"⟩, ⟨2, "v2", "  "⟩, ⟨3, "", "n3"⟩] =
      ["d/scene_1_video.mp4", "d/scene_2_video.mp4"] ∧
    (generate_scene_voiceovers (fun _ => true) "d"
      [⟨1, "v1", "n1"⟩, ⟨2, "v2", "  "⟩, ⟨3, "", "n3"⟩]).length <
      ([⟨1, "v1", "n1"⟩, ⟨2, "v2", "  "⟩,
        (⟨3, "", "n3"⟩ : Scene)].map Scene.narration).length := by
  refine ⟨(blank_scene_skipped.1 (fun _ => true) "d"
      [⟨1, "v1", "n1"⟩, ⟨2, "v2", "  "⟩, ⟨3, "", "n3"⟩]
      (fun t _ _ => rfl)).trans (by decide),
    (blank_scene_skipped.2.1 (fun _ => true) "d"
      [⟨1, "v1", "n1"⟩, ⟨2, "v2", "  "⟩, ⟨3, "", "n3"⟩]
      (fun t _ _ => rfl)).trans (by decide),
    blank_scene_skipped.2.2 (fun _ => true) "d"
      [⟨1, "v1", "n1"⟩, ⟨2, "v2", "  "⟩, ⟨3, "", "n3"⟩] ⟨2, "v2", "  "⟩
      (fun t _ _ => rfl) (by simp) (by decide)⟩

end ViralReel
